import Mathlib

/-!
Verification of the LinDB storage-node core slice: the series index database
(`indexdb`), the replication-channel configuration (`config`), identifier
sanitisation, and the segmented data store.  Go maps are embedded as
association lists with first-occurrence semantics, Go machine integers as
`Nat`/`Int` (no operation here can overflow `int64`/`uint32` ranges in the
modelled scenarios), and fallible Go calls as `Except`/`Option` results.
Components whose implementation is not part of the sampled sources (the
segment, the sanitise helpers, the metric-id-mapping record and the WAL
backend primitives) are modelled from the specification; each such
definition says so in its doc comment.
-/

namespace LinDB

/-! ### Association-list maps (embedding of Go maps) -/

/-- Lookup in an association list, first occurrence wins (Go map read). -/
def lookupm {α : Type} : List (Nat × α) → Nat → Option α
  | [], _ => none
  | (k, v) :: rest, key => if k = key then some v else lookupm rest key

/-- Update in an association list: replace the first binding of the key in
place, or append a fresh binding at the end (Go map write). -/
def setm {α : Type} : List (Nat × α) → Nat → α → List (Nat × α)
  | [], key, val => [(key, val)]
  | (k, v) :: rest, key, val =>
    if k = key then (k, val) :: rest else (k, v) :: setm rest key val

/-- Delete the first binding of a key from an association list (Go map delete). -/
def removem {α : Type} : List (Nat × α) → Nat → List (Nat × α)
  | [], _ => []
  | (k, v) :: rest, key => if k = key then rest else (k, v) :: removem rest key

theorem lookupm_setm_self {α : Type} (l : List (Nat × α)) (k : Nat) (v : α) :
    lookupm (setm l k v) k = some v := by
  induction l with
  | nil => simp [setm, lookupm]
  | cons p rest ih =>
    obtain ⟨k1, v1⟩ := p
    by_cases h : k1 = k <;> simp [setm, lookupm, h, ih]

theorem lookupm_setm_ne {α : Type} (l : List (Nat × α)) (k k' : Nat) (v : α)
    (h : k' ≠ k) : lookupm (setm l k v) k' = lookupm l k' := by
  have hne : k ≠ k' := Ne.symm h
  induction l with
  | nil => simp [setm, lookupm, hne]
  | cons p rest ih =>
    obtain ⟨k1, v1⟩ := p
    by_cases hk : k1 = k
    · subst hk
      simp [setm, lookupm, hne]
    · simp [setm, lookupm, hk, ih]

theorem setm_setm {α : Type} (l : List (Nat × α)) (k : Nat) (v w : α) :
    setm (setm l k v) k w = setm l k w := by
  induction l with
  | nil => simp [setm]
  | cons p rest ih =>
    obtain ⟨k1, v1⟩ := p
    by_cases h : k1 = k <;> simp [setm, h, ih]

theorem setm_eq_of_lookupm {α : Type} (l : List (Nat × α)) (k : Nat) (v : α)
    (h : lookupm l k = some v) : setm l k v = l := by
  induction l with
  | nil => simp [lookupm] at h
  | cons p rest ih =>
    obtain ⟨k1, v1⟩ := p
    by_cases hk : k1 = k
    · subst hk
      simp [lookupm] at h
      simp [setm, h]
    · simp [lookupm, hk] at h
      simp [setm, hk, ih h]

theorem removem_setm {α : Type} (l : List (Nat × α)) (k : Nat) (v : α)
    (h : lookupm l k = none) : removem (setm l k v) k = l := by
  induction l with
  | nil => simp [setm, removem]
  | cons p rest ih =>
    obtain ⟨k1, v1⟩ := p
    by_cases hk : k1 = k
    · subst hk
      simp [lookupm] at h
    · simp [lookupm, hk] at h
      simp [setm, removem, hk, ih h]

theorem lookupm_mem {α : Type} (l : List (Nat × α)) (k : Nat) (v : α)
    (h : lookupm l k = some v) : (k, v) ∈ l := by
  induction l with
  | nil => simp [lookupm] at h
  | cons p rest ih =>
    obtain ⟨k1, v1⟩ := p
    by_cases hk : k1 = k
    · subst hk
      simp [lookupm] at h
      simp [h]
    · simp [lookupm, hk] at h
      exact List.mem_cons_of_mem _ (ih h)

/-! ### ReplicationChannel.GetDataSizeLimit (config/broker.go) -/

/-- Embedding of `ReplicationChannel.GetDataSizeLimit` from `config/broker.go`:
clamp the configured `DataSizeLimit` (megabytes, `int64`) into `[1MB, 1GB]`
expressed in bytes. -/
def GetDataSizeLimit (dataSizeLimit : Int) : Int :=
  if dataSizeLimit ≤ 1 then 1024 * 1024
  else if dataSizeLimit ≥ 1024 then 1024 * 1024 * 1024
  else dataSizeLimit * 1024 * 1024

/-! ### Identifier sanitisation (series/metric package) -/

/-- Modelled from the spec: `SanitizeNamespace`/`SanitizeMetricName` replace
every character `|` with `_` and pass every other character through (the
implementation is not in the sampled sources, only its test
`Test_Sanitize`). -/
def sanitizeChar (c : Char) : Char := if c = '|' then '_' else c

/-- Modelled from the spec: namespace sanitisation replaces `|` by `_`. -/
def SanitizeNamespace (s : String) : String := ⟨s.data.map sanitizeChar⟩

/-- Modelled from the spec: metric-name sanitisation replaces `|` by `_`. -/
def SanitizeMetricName (s : String) : String := ⟨s.data.map sanitizeChar⟩

/-- Modelled from the spec: `JoinNamespaceMetric(ns, m)` yields `ns + "|" + m`
without re-sanitising its inputs. -/
def JoinNamespaceMetric (ns metricName : String) : String := ns ++ "|" ++ metricName

/-! ### GetSeriesIDsForMetric (indexdb, in the sampled sources) -/

/-- Error produced by the metadata service or the inverted index; the
concrete error values are irrelevant to the claims, only propagation is. -/
inductive MetaErr
  | ioErr
deriving DecidableEq

/-- One tag key as returned by `Metadata.MetadataDatabase().GetAllTagKeys`:
a key name plus its tag-key identifier. -/
structure TagMeta where
  key : String
  id : Nat
deriving DecidableEq

/-- `constants.SeriesIDWithoutTags`: the sentinel series id `0` meaning
"metric has no tags" (from the spec's sentinel-values section). -/
def SeriesIDWithoutTags : Nat := 0

/-- Embedding of `indexDatabase.GetSeriesIDsForMetric`: fetch all tag keys of
the metric from metadata; on error propagate it; with zero tag keys return
the singleton bitmap holding the no-tags sentinel; otherwise delegate to the
inverted index over the tag-key ids.  The metadata service and the inverted
index are external collaborators, passed as function parameters; bitmaps are
embedded as lists of series ids. -/
def GetSeriesIDsForMetric
    (getAllTagKeys : String → String → Except MetaErr (List TagMeta))
    (getSeriesIDsForTags : List Nat → Except MetaErr (List Nat))
    (ns metricName : String) : Except MetaErr (List Nat) :=
  match getAllTagKeys ns metricName with
  | .error e => .error e
  | .ok tags =>
    if tags.length = 0 then .ok [SeriesIDWithoutTags]
    else getSeriesIDsForTags (tags.map TagMeta.id)

/-! ### indexDatabase.Close (in the sampled sources) -/

/-- The observable steps `indexDatabase.Close` performs, in program order. -/
inductive CloseEvent
  | cancelSync
  | acquireLock
  | closeWAL
  | closeBackend
  | flushIndex
deriving DecidableEq

/-- Errors `indexDatabase.Close` can return: the backend-close error is
returned as-is, an index-flush error is the value of the final
`db.index.Flush()`; a WAL-close error is only logged, never returned. -/
inductive CloseErr
  | backendCloseErr
  | indexFlushErr
deriving DecidableEq

/-- Embedding of `indexDatabase.Close` as an event trace: cancel the
background-sync context, take the write guard, close the WAL (an error here
is only logged), close the backend (an error here is returned immediately),
and only then flush the inverted index.  The three flags say whether the
respective sub-call succeeds. -/
def indexDatabaseClose (walCloseOk backendCloseOk flushOk : Bool) :
    List CloseEvent × Option CloseErr :=
  let pre := [CloseEvent.cancelSync, CloseEvent.acquireLock,
              CloseEvent.closeWAL, CloseEvent.closeBackend]
  if backendCloseOk then
    (pre ++ [CloseEvent.flushIndex], if flushOk then none else some CloseErr.indexFlushErr)
  else
    (pre, some CloseErr.backendCloseErr)

/-! ### Metric-id mapping and the series WAL (indexdb) -/

/-- In-memory per-metric series-id allocator state (spec data model:
`metricID`, `seq`, `hashToID`).  The record itself is not in the sampled
sources; it is modelled from the spec's data-model table. -/
structure MetricIDMapping where
  metricID : Nat
  idSequence : Nat
  hashToID : List (Nat × Nat)
deriving DecidableEq

/-- Modelled from the spec: `newMetricIDMapping(metricID, 0)` creates a fresh
mapping with the given sequence and no hash bindings. -/
def newMetricIDMapping (metricID sequence : Nat) : MetricIDMapping :=
  ⟨metricID, sequence, []⟩

/-- Modelled from the spec: `GetSeriesID` is the in-memory
`tagsHash → seriesID` lookup. -/
def MetricIDMapping.GetSeriesID (m : MetricIDMapping) (tagsHash : Nat) : Option Nat :=
  lookupm m.hashToID tagsHash

/-- Modelled from the spec: `AddSeriesID` caches a series id loaded from the
backend under its tags hash. -/
def MetricIDMapping.AddSeriesID (m : MetricIDMapping) (tagsHash seriesID : Nat) :
    MetricIDMapping :=
  { m with hashToID := setm m.hashToID tagsHash seriesID }

/-- Modelled from the spec: `GenSeriesID` allocates the next series id from
the per-metric sequence and binds it to the tags hash.  The spec's concrete
scenario 1 fixes the first allocation on a fresh mapping (sequence `0`) to
return series id `1`, so allocation advances the sequence first and returns
the advanced value. -/
def MetricIDMapping.GenSeriesID (m : MetricIDMapping) (tagsHash : Nat) :
    Nat × MetricIDMapping :=
  let seriesID := m.idSequence + 1
  (seriesID, { m with idSequence := seriesID,
                      hashToID := setm m.hashToID tagsHash seriesID })

/-- Modelled from the spec: `RemoveSeriesID` rolls an allocation back — if
the tags hash is bound it deletes the binding and restores the sequence
(spec section 4.3 step 7, "remove from mapping and decrement semantics"). -/
def MetricIDMapping.RemoveSeriesID (m : MetricIDMapping) (tagsHash : Nat) :
    MetricIDMapping :=
  match lookupm m.hashToID tagsHash with
  | some _ => { m with idSequence := m.idSequence - 1,
                       hashToID := removem m.hashToID tagsHash }
  | none => m

/-- One record of the series WAL: an allocation tuple
`(metricID, tagsHash, seriesID)`. -/
structure SeriesWALRecord where
  metricID : Nat
  tagsHash : Nat
  seriesID : Nat
deriving DecidableEq

/-- The durable id-mapping backend: a key-value store keyed by metric id,
holding each metric's allocator state.  Modelled from the spec's section 4.1
contract (the backend implementation is not in the sampled sources). -/
structure IDMappingBackend where
  mappings : List (Nat × MetricIDMapping)
deriving DecidableEq

/-- Modelled from the spec: `loadMetricIDMapping(metricID)` returns the
complete stored mapping or `NotFound` (embedded as `none`). -/
def IDMappingBackend.loadMetricIDMapping (b : IDMappingBackend) (metricID : Nat) :
    Option MetricIDMapping :=
  lookupm b.mappings metricID

/-- Modelled from the spec: `getSeriesID(metricID, tagsHash)` probes the
backend for one specific hash, returning `NotFound` (`none`) on a miss. -/
def IDMappingBackend.getSeriesID (b : IDMappingBackend) (metricID tagsHash : Nat) :
    Option Nat :=
  (lookupm b.mappings metricID).bind fun m => lookupm m.hashToID tagsHash

/-- The index database state owned by `indexDatabase` (in the sampled
sources): the in-memory cache `metricID2Mapping`, the backend, and the
un-replayed records of the series WAL. -/
structure IndexDBState where
  metricID2Mapping : List (Nat × MetricIDMapping)
  backend : IDMappingBackend
  wal : List SeriesWALRecord
deriving DecidableEq

/-- The only error `GetOrCreateSeriesID` can produce in this embedding: the
WAL `Append` failed (the pure backend has no transient errors; its only
failure, `NotFound`, is handled inside the algorithm). -/
inductive SeriesErr
  | walAppendErr
deriving DecidableEq

/-- The Go triple `(seriesID uint32, isCreated bool, err error)` returned by
`GetOrCreateSeriesID`; error paths return `(0, false, err)` as the code does. -/
structure SeriesResult where
  seriesID : Nat
  isCreated : Bool
  err : Option SeriesErr
deriving DecidableEq

/-- The allocation tail of `indexDatabase.GetOrCreateSeriesID` (in the
sampled sources): generate a new series id inside the mapping `m` (already
installed in the cache), append the tuple to the WAL, and on append failure
roll the assigned id back with `RemoveSeriesID` and return the error.
`walOk` says whether this call's `Append` succeeds. -/
def allocateSeriesID (db : IndexDBState) (m : MetricIDMapping) (walOk : Bool)
    (metricID tagsHash : Nat) : SeriesResult × IndexDBState :=
  let r := m.GenSeriesID tagsHash
  let db1 := { db with metricID2Mapping := setm db.metricID2Mapping metricID r.2 }
  if walOk then
    (⟨r.1, true, none⟩, { db1 with wal := db1.wal ++ [⟨metricID, tagsHash, r.1⟩] })
  else
    (⟨0, false, some SeriesErr.walAppendErr⟩,
     { db1 with
        metricID2Mapping :=
          setm db1.metricID2Mapping metricID (r.2.RemoveSeriesID tagsHash) })

/-- Embedding of `indexDatabase.GetOrCreateSeriesID` (in the sampled
sources): consult the cache, else load from the backend (installing a fresh
mapping on `NotFound`, otherwise caching the loaded mapping and probing the
backend for the specific hash), and finally allocate a new id and append it
to the WAL.  All steps run under the write guard, so one call is one atomic
state transition. -/
def GetOrCreateSeriesID (db : IndexDBState) (walOk : Bool) (metricID tagsHash : Nat) :
    SeriesResult × IndexDBState :=
  match lookupm db.metricID2Mapping metricID with
  | some m =>
    match m.GetSeriesID tagsHash with
    | some sid => (⟨sid, false, none⟩, db)
    | none => allocateSeriesID db m walOk metricID tagsHash
  | none =>
    match db.backend.loadMetricIDMapping metricID with
    | none =>
      let m := newMetricIDMapping metricID 0
      let db1 := { db with metricID2Mapping := setm db.metricID2Mapping metricID m }
      allocateSeriesID db1 m walOk metricID tagsHash
    | some m =>
      let db1 := { db with metricID2Mapping := setm db.metricID2Mapping metricID m }
      match db1.backend.getSeriesID metricID tagsHash with
      | some sid =>
        (⟨sid, false, none⟩,
         { db1 with
            metricID2Mapping :=
              setm db1.metricID2Mapping metricID (m.AddSeriesID tagsHash sid) })
      | none => allocateSeriesID db1 m walOk metricID tagsHash

/-- The series id a caller can observe for `(metricID, tagsHash)` without
allocating: the cache answer when the metric is cached, otherwise the
backend answer.  `none` means the pair was never successfully allocated. -/
def seriesView (db : IndexDBState) (metricID tagsHash : Nat) : Option Nat :=
  match lookupm db.metricID2Mapping metricID with
  | some m => m.GetSeriesID tagsHash
  | none => db.backend.getSeriesID metricID tagsHash

/-! ### Helper lemmas about GetOrCreateSeriesID -/

theorem removeSeriesID_genSeriesID (m : MetricIDMapping) (tagsHash : Nat)
    (hnone : lookupm m.hashToID tagsHash = none) :
    ((m.GenSeriesID tagsHash).2).RemoveSeriesID tagsHash = m := by
  obtain ⟨mid, seq, l⟩ := m
  simp only [MetricIDMapping.GenSeriesID, MetricIDMapping.RemoveSeriesID] at *
  simp [lookupm_setm_self, removem_setm _ _ _ hnone]

theorem getOrCreate_hit (db : IndexDBState) (walOk : Bool) (metricID tagsHash sid : Nat)
    (m : MetricIDMapping)
    (hc : lookupm db.metricID2Mapping metricID = some m)
    (hs : m.GetSeriesID tagsHash = some sid) :
    GetOrCreateSeriesID db walOk metricID tagsHash = (⟨sid, false, none⟩, db) := by
  simp [GetOrCreateSeriesID, hc, hs]

theorem allocate_then_hit (dbX : IndexDBState) (m : MetricIDMapping)
    (metricID tagsHash : Nat) :
    ∃ db1, allocateSeriesID dbX m true metricID tagsHash =
        (⟨m.idSequence + 1, true, none⟩, db1) ∧
      ∀ walOk, GetOrCreateSeriesID db1 walOk metricID tagsHash =
        (⟨m.idSequence + 1, false, none⟩, db1) := by
  refine ⟨_, rfl, ?_⟩
  intro walOk
  apply getOrCreate_hit
  · exact lookupm_setm_self _ _ _
  · exact lookupm_setm_self _ _ _

theorem getOrCreate_fresh (db : IndexDBState) (metricID tagsHash : Nat)
    (hfresh : seriesView db metricID tagsHash = none) :
    ∃ s db1, GetOrCreateSeriesID db true metricID tagsHash = (⟨s, true, none⟩, db1) ∧
      ∀ walOk, GetOrCreateSeriesID db1 walOk metricID tagsHash =
        (⟨s, false, none⟩, db1) := by
  cases hc : lookupm db.metricID2Mapping metricID with
  | some m =>
    have hm : m.GetSeriesID tagsHash = none := by
      simpa [seriesView, hc] using hfresh
    obtain ⟨db1, hall, hnext⟩ := allocate_then_hit db m metricID tagsHash
    refine ⟨m.idSequence + 1, db1, ?_, hnext⟩
    have he : GetOrCreateSeriesID db true metricID tagsHash =
        allocateSeriesID db m true metricID tagsHash := by
      simp [GetOrCreateSeriesID, hc, hm]
    rw [he, hall]
  | none =>
    have hb : db.backend.getSeriesID metricID tagsHash = none := by
      simpa [seriesView, hc] using hfresh
    cases hl : db.backend.loadMetricIDMapping metricID with
    | none =>
      obtain ⟨db1, hall, hnext⟩ := allocate_then_hit { db with metricID2Mapping := setm db.metricID2Mapping metricID (newMetricIDMapping metricID 0) } (newMetricIDMapping metricID 0) metricID tagsHash
      refine ⟨_, db1, ?_, hnext⟩
      have he : GetOrCreateSeriesID db true metricID tagsHash =
          allocateSeriesID { db with metricID2Mapping := setm db.metricID2Mapping metricID (newMetricIDMapping metricID 0) } (newMetricIDMapping metricID 0) true metricID tagsHash := by
        simp [GetOrCreateSeriesID, hc, hl]
      rw [he, hall]
    | some mb =>
      obtain ⟨db1, hall, hnext⟩ := allocate_then_hit { db with metricID2Mapping := setm db.metricID2Mapping metricID mb } mb metricID tagsHash
      refine ⟨_, db1, ?_, hnext⟩
      have he : GetOrCreateSeriesID db true metricID tagsHash =
          allocateSeriesID { db with metricID2Mapping := setm db.metricID2Mapping metricID mb } mb true metricID tagsHash := by
        simp [GetOrCreateSeriesID, hc, hl, hb]
      rw [he, hall]

theorem getOrCreate_walFail (db : IndexDBState) (metricID tagsHash : Nat)
    (hfresh : seriesView db metricID tagsHash = none) :
    ∃ db', GetOrCreateSeriesID db false metricID tagsHash =
        (⟨0, false, some SeriesErr.walAppendErr⟩, db') ∧
      db'.backend = db.backend ∧ db'.wal = db.wal ∧
      (∀ mid' h', seriesView db' mid' h' = seriesView db mid' h') ∧
      (∀ m, lookupm db.metricID2Mapping metricID = some m → db' = db) := by
  cases hc : lookupm db.metricID2Mapping metricID with
  | some m =>
    have hm : m.GetSeriesID tagsHash = none := by
      simpa [seriesView, hc] using hfresh
    have hm' : lookupm m.hashToID tagsHash = none := hm
    refine ⟨db, ?_, rfl, rfl, fun _ _ => rfl, fun _ _ => rfl⟩
    have he : GetOrCreateSeriesID db false metricID tagsHash =
        allocateSeriesID db m false metricID tagsHash := by
      simp [GetOrCreateSeriesID, hc, hm]
    rw [he]
    unfold allocateSeriesID
    simp only [Bool.false_eq_true, if_false, Prod.mk.injEq, and_true, true_and]
    rw [setm_setm, removeSeriesID_genSeriesID m tagsHash hm',
        setm_eq_of_lookupm _ _ _ hc]
  | none =>
    have hb : db.backend.getSeriesID metricID tagsHash = none := by
      simpa [seriesView, hc] using hfresh
    cases hl : db.backend.loadMetricIDMapping metricID with
    | none =>
      have hbm : lookupm db.backend.mappings metricID = none := hl
      refine ⟨{ db with metricID2Mapping := setm db.metricID2Mapping metricID (newMetricIDMapping metricID 0) }, ?_, rfl, rfl, ?_, ?_⟩
      · have he : GetOrCreateSeriesID db false metricID tagsHash =
            allocateSeriesID { db with metricID2Mapping := setm db.metricID2Mapping metricID (newMetricIDMapping metricID 0) } (newMetricIDMapping metricID 0) false metricID tagsHash := by
          simp [GetOrCreateSeriesID, hc, hl]
        rw [he]
        unfold allocateSeriesID
        simp only [Bool.false_eq_true, if_false, Prod.mk.injEq, true_and]
        rw [setm_setm, setm_setm,
            removeSeriesID_genSeriesID (newMetricIDMapping metricID 0) tagsHash rfl]
      · intro mid' h'
        by_cases hmid : mid' = metricID
        · subst hmid
          simp [seriesView, hc, lookupm_setm_self, MetricIDMapping.GetSeriesID,
                newMetricIDMapping, lookupm, IDMappingBackend.getSeriesID, hbm]
        · simp [seriesView, lookupm_setm_ne _ _ _ _ hmid]
      · intro m hm
        simp [hc] at hm
    | some mb =>
      have hbm : lookupm db.backend.mappings metricID = some mb := hl
      have hmb : lookupm mb.hashToID tagsHash = none := by
        simpa [IDMappingBackend.getSeriesID, hbm] using hb
      refine ⟨{ db with metricID2Mapping := setm db.metricID2Mapping metricID mb }, ?_, rfl, rfl, ?_, ?_⟩
      · have he : GetOrCreateSeriesID db false metricID tagsHash =
            allocateSeriesID { db with metricID2Mapping := setm db.metricID2Mapping metricID mb } mb false metricID tagsHash := by
          simp [GetOrCreateSeriesID, hc, hl, hb]
        rw [he]
        unfold allocateSeriesID
        simp only [Bool.false_eq_true, if_false, Prod.mk.injEq, true_and]
        rw [setm_setm, setm_setm, removeSeriesID_genSeriesID mb tagsHash hmb]
      · intro mid' h'
        by_cases hmid : mid' = metricID
        · subst hmid
          simp [seriesView, hc, lookupm_setm_self, MetricIDMapping.GetSeriesID,
                IDMappingBackend.getSeriesID, hbm]
        · simp [seriesView, lookupm_setm_ne _ _ _ _ hmid]
      · intro m hm
        simp [hc] at hm

/-! ### Claim C1 -/

/-- The empty index database: fresh cache, empty backend, empty WAL. -/
def emptyIndexDB : IndexDBState := ⟨[], ⟨[]⟩, []⟩

/-- C1: for every `(metricID, tagsHash)` not yet known to the cache or the
backend, the first successful `GetOrCreateSeriesID` call returns some
`seriesID` with `isCreated = true`; every subsequent successful call (with
the WAL working or not) returns the same `seriesID` with
`isCreated = false` and leaves the state unchanged, so the same result
repeats forever. -/
theorem seriesID_stability (db : IndexDBState) (metricID tagsHash : Nat)
    (hfresh : seriesView db metricID tagsHash = none) :
    ∃ s db1, GetOrCreateSeriesID db true metricID tagsHash = (⟨s, true, none⟩, db1) ∧
      ∀ walOk, GetOrCreateSeriesID db1 walOk metricID tagsHash =
        (⟨s, false, none⟩, db1) :=
  getOrCreate_fresh db metricID tagsHash hfresh

/-- Witness for C1 at `metricID = 7`, `tagsHash = 0xDEAD = 57005` on the
empty database (the spec's concrete scenario 1). -/
theorem seriesID_stability_witness :
    seriesView emptyIndexDB 7 57005 = none ∧
    ∃ s db1, GetOrCreateSeriesID emptyIndexDB true 7 57005 = (⟨s, true, none⟩, db1) ∧
      ∀ walOk, GetOrCreateSeriesID db1 walOk 7 57005 = (⟨s, false, none⟩, db1) :=
  ⟨rfl, seriesID_stability emptyIndexDB 7 57005 rfl⟩

/-! ### Claim C2 -/

/-- C2 counterexample: on the empty database a `GetOrCreateSeriesID` call
whose WAL append fails returns the error, but the post-call state is NOT
identical to the pre-call state — the cache has gained a (rolled-back,
empty) mapping entry for metric 7, which the code installs before the
allocation and never removes. -/
theorem wal_rollback_state_counterexample :
    (GetOrCreateSeriesID emptyIndexDB false 7 57005).1.err =
      some SeriesErr.walAppendErr ∧
    (GetOrCreateSeriesID emptyIndexDB false 7 57005).2 ≠ emptyIndexDB := by
  decide

/-- C2 (amended): if the WAL append fails, the call returns an error with no
series id; the allocation is rolled back so that the backend and WAL are
untouched and every observable `(metricID, tagsHash) → seriesID` lookup is
exactly as before the call; when the metric's mapping was already cached the
state is literally the pre-call state (for a previously-unseen metric the
cache retains an empty mapping entry); and a later successful retry with the
same hash allocates a single series id with `isCreated = true` which all
subsequent calls return with `isCreated = false` — so callers never observe
two different series ids for the pair. -/
theorem wal_rollback_amended (db : IndexDBState) (metricID tagsHash : Nat)
    (hfresh : seriesView db metricID tagsHash = none) :
    ∃ db', GetOrCreateSeriesID db false metricID tagsHash =
        (⟨0, false, some SeriesErr.walAppendErr⟩, db') ∧
      db'.backend = db.backend ∧ db'.wal = db.wal ∧
      (∀ mid' h', seriesView db' mid' h' = seriesView db mid' h') ∧
      (∀ m, lookupm db.metricID2Mapping metricID = some m → db' = db) ∧
      ∃ s db2, GetOrCreateSeriesID db' true metricID tagsHash =
          (⟨s, true, none⟩, db2) ∧
        ∀ walOk, GetOrCreateSeriesID db2 walOk metricID tagsHash =
          (⟨s, false, none⟩, db2) := by
  obtain ⟨db', h1, h2, h3, h4, h5⟩ := getOrCreate_walFail db metricID tagsHash hfresh
  exact ⟨db', h1, h2, h3, h4, h5,
    getOrCreate_fresh db' metricID tagsHash ((h4 metricID tagsHash).trans hfresh)⟩

/-- Witness for the amended C2 at `metricID = 7`, `tagsHash = 57005` on the
empty database. -/
theorem wal_rollback_amended_witness :
    seriesView emptyIndexDB 7 57005 = none ∧
    ∃ db', GetOrCreateSeriesID emptyIndexDB false 7 57005 =
        (⟨0, false, some SeriesErr.walAppendErr⟩, db') ∧
      db'.backend = emptyIndexDB.backend ∧ db'.wal = emptyIndexDB.wal ∧
      (∀ mid' h', seriesView db' mid' h' = seriesView emptyIndexDB mid' h') ∧
      (∀ m, lookupm emptyIndexDB.metricID2Mapping 7 = some m → db' = emptyIndexDB) ∧
      ∃ s db2, GetOrCreateSeriesID db' true 7 57005 = (⟨s, true, none⟩, db2) ∧
        ∀ walOk, GetOrCreateSeriesID db2 walOk 7 57005 = (⟨s, false, none⟩, db2) :=
  ⟨rfl, wal_rollback_amended emptyIndexDB 7 57005 rfl⟩

/-! ### Claim C3: NewIndexDatabase and WAL recovery -/

/-- Modelled from the spec (section 4.1): `saveMapping` applies one
allocation tuple to the backend, advancing the metric's sequence to
`max(current, seriesID + 1)`. -/
def applyWALRecord (b : IDMappingBackend) (r : SeriesWALRecord) : IDMappingBackend :=
  let m := (lookupm b.mappings r.metricID).getD (newMetricIDMapping r.metricID 0)
  ⟨setm b.mappings r.metricID
    { m with idSequence := max m.idSequence (r.seriesID + 1),
             hashToID := setm m.hashToID r.tagsHash r.seriesID }⟩

/-- Modelled from the spec: `saveMapping(event)` atomically applies a batch
of allocation tuples to the backend. -/
def saveMapping (b : IDMappingBackend) (event : List SeriesWALRecord) : IDMappingBackend :=
  event.foldl applyWALRecord b

/-- `SeriesWAL.NeedRecovery`: true iff un-replayed records remain
(modelled from the spec's section 4.2 contract). -/
def NeedRecovery (pending : List SeriesWALRecord) : Bool := !pending.isEmpty

/-- Embedding of `indexDatabase.seriesRecovery` (in the sampled sources):
replay the pending WAL records into the backend through `saveMapping`.  The
event batching is abstracted into a single batch; `saveOk` says whether the
backend accepts the batch.  On success the WAL is truncated; if `saveMapping`
fails, replay halts and the pending records remain (so `NeedRecovery` stays
true). -/
def seriesRecovery (b : IDMappingBackend) (pending : List SeriesWALRecord)
    (saveOk : Bool) : IDMappingBackend × List SeriesWALRecord :=
  if saveOk then (saveMapping b pending, []) else (b, pending)

/-- The errors `NewIndexDatabase` can return. `needRecoveryWAL` is the
`ErrNeedRecoveryWAL` sentinel. -/
inductive IndexDBErr
  | createBackendErr
  | createWALErr
  | needRecoveryWAL
deriving DecidableEq

/-- Result of `NewIndexDatabase`: either an open database, or an error
together with whether the backend opened during construction was closed on
the way out (the deferred close runs whenever `err != nil`). -/
inductive NewIndexDBResult
  | ok (db : IndexDBState)
  | fail (e : IndexDBErr) (backendClosed : Bool)
deriving DecidableEq

/-- Embedding of `NewIndexDatabase` (in the sampled sources): create the
backend (`none` = failure, nothing to close), create the series WAL (on
failure the deferred handler closes the backend), run the initial
`seriesRecovery`, and if the WAL still needs recovery return the nil
database with `ErrNeedRecoveryWAL` — again closing the backend via the
deferred handler.  Otherwise the database opens with an empty cache. -/
def NewIndexDatabase (backendRes : Option IDMappingBackend)
    (walRes : Option (List SeriesWALRecord)) (saveOk : Bool) : NewIndexDBResult :=
  match backendRes with
  | none => .fail .createBackendErr false
  | some backend =>
    match walRes with
    | none => .fail .createWALErr true
    | some pending =>
      let r := seriesRecovery backend pending saveOk
      if NeedRecovery r.2 = true then .fail .needRecoveryWAL true
      else .ok ⟨[], r.1, r.2⟩

/-- C3: if after the initial `seriesRecovery` the WAL still needs recovery,
`NewIndexDatabase` returns no database, the error is the
`ErrNeedRecoveryWAL` sentinel, and the backend opened during construction is
closed. -/
theorem newIndexDatabase_needRecovery_fails (b : IDMappingBackend)
    (pending : List SeriesWALRecord) (saveOk : Bool)
    (h : NeedRecovery (seriesRecovery b pending saveOk).2 = true) :
    NewIndexDatabase (some b) (some pending) saveOk =
      .fail .needRecoveryWAL true := by
  simp [NewIndexDatabase, h]

/-- Witness for C3: one pending record and a failing backend save leave
`NeedRecovery` true, so opening fails with the recovery error and a closed
backend. -/
theorem newIndexDatabase_needRecovery_fails_witness :
    NeedRecovery (seriesRecovery ⟨[]⟩ [⟨7, 57005, 1⟩] false).2 = true ∧
    NewIndexDatabase (some ⟨[]⟩) (some [⟨7, 57005, 1⟩]) false =
      .fail .needRecoveryWAL true :=
  ⟨rfl, newIndexDatabase_needRecovery_fails ⟨[]⟩ [⟨7, 57005, 1⟩] false rfl⟩

/-! ### Claim C4 -/

/-- C4: whenever metadata reports that the metric has zero tag keys,
`GetSeriesIDsForMetric` returns exactly the singleton bitmap `{0}` (the
no-tags sentinel series id) and no error, for every namespace and metric
name and regardless of the inverted index. -/
theorem getSeriesIDsForMetric_empty_tags
    (getAllTagKeys : String → String → Except MetaErr (List TagMeta))
    (getSeriesIDsForTags : List Nat → Except MetaErr (List Nat))
    (ns metricName : String)
    (hempty : getAllTagKeys ns metricName = .ok []) :
    GetSeriesIDsForMetric getAllTagKeys getSeriesIDsForTags ns metricName =
      .ok [0] := by
  simp [GetSeriesIDsForMetric, hempty, SeriesIDWithoutTags]

/-- Witness for C4 with a metadata service that reports no tag keys and an
inverted index that would answer something else entirely. -/
theorem getSeriesIDsForMetric_empty_tags_witness :
    (fun (_ _ : String) => (Except.ok [] : Except MetaErr (List TagMeta))) "ns" "cpu" =
      .ok [] ∧
    GetSeriesIDsForMetric (fun _ _ => .ok []) (fun _ => .ok [1, 2, 3]) "ns" "cpu" =
      .ok [0] :=
  ⟨rfl, getSeriesIDsForMetric_empty_tags (fun _ _ => .ok []) (fun _ => .ok [1, 2, 3])
    "ns" "cpu" rfl⟩

/-! ### Claim C8 -/

/-- C8 counterexample: when closing the backend fails, `Close` returns the
backend error and the inverted index is NOT flushed — so "every Close call
flushes the index" is false. -/
theorem close_flush_counterexample :
    CloseEvent.flushIndex ∉ (indexDatabaseClose true false true).1 ∧
    (indexDatabaseClose true false true).2 = some CloseErr.backendCloseErr := by
  decide

/-- C8 (amended): `Close` always performs, in order, cancel background sync,
acquire the write guard, close the WAL, close the backend; when the backend
close succeeds the index is flushed afterwards (the trace ends with
`flushIndex`); when the backend close fails, `Close` returns that error and
the index flush is skipped. -/
theorem close_ordering_amended (walCloseOk backendCloseOk flushOk : Bool) :
    ((indexDatabaseClose walCloseOk backendCloseOk flushOk).1.take 4 =
      [CloseEvent.cancelSync, CloseEvent.acquireLock, CloseEvent.closeWAL,
       CloseEvent.closeBackend]) ∧
    (backendCloseOk = true →
      (indexDatabaseClose walCloseOk backendCloseOk flushOk).1 =
        [CloseEvent.cancelSync, CloseEvent.acquireLock, CloseEvent.closeWAL,
         CloseEvent.closeBackend, CloseEvent.flushIndex]) ∧
    (backendCloseOk = false →
      (indexDatabaseClose walCloseOk backendCloseOk flushOk).1 =
        [CloseEvent.cancelSync, CloseEvent.acquireLock, CloseEvent.closeWAL,
         CloseEvent.closeBackend] ∧
      (indexDatabaseClose walCloseOk backendCloseOk flushOk).2 =
        some CloseErr.backendCloseErr) := by
  cases backendCloseOk <;> cases flushOk <;> simp [indexDatabaseClose]

/-- Witness for the amended C8: with every sub-call succeeding the trace is
the full five-step sequence ending in the index flush. -/
theorem close_ordering_amended_witness :
    (indexDatabaseClose true true true).1 =
      [CloseEvent.cancelSync, CloseEvent.acquireLock, CloseEvent.closeWAL,
       CloseEvent.closeBackend, CloseEvent.flushIndex] :=
  (close_ordering_amended true true true).2.1 rfl

/-! ### Claim C10 -/

/-- C10: `GetDataSizeLimit` always lands in `[1MB, 1GB]`: exactly `1MB` when
the configured limit is at most 1 (zero and negatives included), exactly
`1GB` when it is at least 1024, and `limit * 1MB` strictly in between. -/
theorem getDataSizeLimit_bounds (d : Int) :
    (d ≤ 1 → GetDataSizeLimit d = 1024 * 1024) ∧
    (d ≥ 1024 → GetDataSizeLimit d = 1024 * 1024 * 1024) ∧
    (1 < d → d < 1024 → GetDataSizeLimit d = d * 1024 * 1024) ∧
    1024 * 1024 ≤ GetDataSizeLimit d ∧
    GetDataSizeLimit d ≤ 1024 * 1024 * 1024 := by
  by_cases h1 : d ≤ 1
  · simp only [GetDataSizeLimit, if_pos h1]
    refine ⟨fun _ => by norm_num, fun h2 => absurd h2 (by omega),
      fun h2 _ => absurd h2 (by omega), by norm_num, by norm_num⟩
  · by_cases h2 : d ≥ 1024
    · simp only [GetDataSizeLimit, if_neg h1, if_pos h2]
      refine ⟨fun h => absurd h h1, fun _ => by norm_num,
        fun _ h3 => absurd h2 (by omega), by norm_num, by norm_num⟩
    · simp only [GetDataSizeLimit, if_neg h1, if_neg h2]
      refine ⟨fun h => absurd h h1, fun h => absurd h h2, fun _ _ => by norm_num, ?_, ?_⟩
      · omega
      · omega

/-- Witness for C10 at the default-like value 512: the limit is
`512MB = 536870912` bytes. -/
theorem getDataSizeLimit_bounds_witness :
    GetDataSizeLimit 512 = 512 * 1024 * 1024 :=
  (getDataSizeLimit_bounds 512).2.2.1 (by norm_num) (by norm_num)

/-! ### Claim C9 -/

theorem map_sanitizeChar_of_no_bar (l : List Char) (hl : '|' ∉ l) :
    l.map sanitizeChar = l := by
  induction l with
  | nil => rfl
  | cons c rest ih =>
    simp only [List.mem_cons, not_or] at hl
    have hc : ¬(c = '|') := fun h => hl.1 h.symm
    simp [sanitizeChar, hc, ih hl.2]

/-- C9: the sanitisers replace every `|` character by `_` and leave every
other character in place (stated position by position), hence are the
identity on inputs without `|`; `JoinNamespaceMetric` concatenates its two
arguments around a literal `|` without touching either part, and on the
spec's example `JoinNamespaceMetric "aa" "bb" = "aa|bb"`; the sanitisers map
the test vector `"aa|aa"` to `"aa_aa"`. -/
theorem sanitize_and_join_spec :
    (∀ s : String, ∀ i : Nat,
      (SanitizeNamespace s).data[i]? = (s.data[i]?).map sanitizeChar) ∧
    (∀ s : String, ∀ i : Nat,
      (SanitizeMetricName s).data[i]? = (s.data[i]?).map sanitizeChar) ∧
    (∀ s : String, '|' ∉ s.data → SanitizeNamespace s = s ∧ SanitizeMetricName s = s) ∧
    (∀ ns metricName : String,
      (JoinNamespaceMetric ns metricName).data = ns.data ++ '|' :: metricName.data) ∧
    JoinNamespaceMetric "aa" "bb" = "aa|bb" ∧
    SanitizeNamespace "aa|aa" = "aa_aa" ∧
    SanitizeMetricName "aa|aa" = "aa_aa" := by
  refine ⟨?_, ?_, ?_, ?_, rfl, rfl, rfl⟩
  · intro s i
    simp [SanitizeNamespace]
  · intro s i
    simp [SanitizeMetricName]
  · intro s hbar
    constructor
    · show (⟨s.data.map sanitizeChar⟩ : String) = s
      rw [map_sanitizeChar_of_no_bar s.data hbar]
    · show (⟨s.data.map sanitizeChar⟩ : String) = s
      rw [map_sanitizeChar_of_no_bar s.data hbar]
  · intro ns metricName
    show (ns ++ "|" ++ metricName).data = _
    simp [String.data_append]

/-- Witness for C9: sanitising a bar-free input is the identity, and the
spec's join example holds. -/
theorem sanitize_and_join_spec_witness :
    ('|' ∉ "aaaa".data → SanitizeNamespace "aaaa" = "aaaa") ∧
    SanitizeNamespace "aaaa" = "aaaa" ∧
    JoinNamespaceMetric "aa" "bb" = "aa|bb" :=
  ⟨fun h => (sanitize_and_join_spec.2.2.1 "aaaa" h).1,
   (sanitize_and_join_spec.2.2.1 "aaaa" (by decide)).1,
   sanitize_and_join_spec.2.2.2.2.1⟩

/-! ### Segmented data store (tsdb): Segment, DataFamily, newSegment.
The segment implementation is not in the sampled sources (only its tests);
these definitions are modelled from the spec's sections 4.5, 6 and 9. -/

/-- Milliseconds per family window (one hour). -/
def oneHour : Int := 3600000

/-- Milliseconds per segment (one day). -/
def oneDay : Int := 86400000

/-- Modelled from the spec: a data family covers one fixed sub-window of a
segment; its time range is stored with an inclusive end (`start + 1h - 1`),
as the segment test expects. -/
structure DataFamily where
  startTime : Int
  endTime : Int
deriving DecidableEq

/-- Modelled from the spec (design note on the sentinel-in-heterogeneous-map
pattern): a families-map slot holds either a real `DataFamily` or a corrupt
sentinel (a non-family value stored in the Go `sync.Map`). -/
inductive FamilyEntry
  | family (f : DataFamily)
  | corrupt
deriving DecidableEq

/-- Modelled from the spec: a segment covers one day starting at `baseTime`
(midnight of its date key), carries the shard interval and the per-slot
families map. -/
structure Segment where
  baseTime : Int
  interval : Int
  families : List (Nat × FamilyEntry)
deriving DecidableEq

/-- Errors of the segment operations: a timestamp outside the segment's day,
the `constants.ErrNotFound` sentinel for a corrupt slot, and a kv-store
`CreateFamily` failure. -/
inductive SegmentErr
  | rangeErr
  | notFound
  | createFamilyErr
deriving DecidableEq

/-- Family slot of a timestamp inside a segment:
`(timestamp - baseTimestamp) / familySpan` (spec section 6). -/
def calcFamilySlot (baseTime t : Int) : Nat := ((t - baseTime) / oneHour).toNat

/-- Modelled from the spec (section 4.5): `Segment.GetOrCreateDataFamily`.
Fail with a range error if the timestamp is outside the segment's day;
otherwise look the computed slot up in the families map — an existing
`DataFamily` is returned as is, a corrupt sentinel fails with `NotFound`;
an absent slot creates a kv family (`createOk` says whether the store's
`CreateFamily` succeeds), wraps it with the slot's `[start, end)` window and
stores it.  The returned state is the (possibly extended) segment; every
error path leaves the segment unchanged. -/
def Segment.GetOrCreateDataFamily (seg : Segment) (createOk : Bool) (t : Int) :
    Except SegmentErr DataFamily × Segment :=
  if t < seg.baseTime ∨ seg.baseTime + oneDay ≤ t then (.error .rangeErr, seg)
  else
    let slot := calcFamilySlot seg.baseTime t
    match lookupm seg.families slot with
    | some (.family f) => (.ok f, seg)
    | some .corrupt => (.error .notFound, seg)
    | none =>
      if createOk then
        let fs := seg.baseTime + slot * oneHour
        let f : DataFamily := ⟨fs, fs + oneHour - 1⟩
        (.ok f, { seg with families := setm seg.families slot (.family f) })
      else (.error .createFamilyErr, seg)

/-- A families map is well formed when every stored family sits at its
computed slot: its window is `[base + slot*1h, base + slot*1h + 1h - 1]`.
The creation path of `GetOrCreateDataFamily` only ever stores such
families. -/
def familyEntryWF (baseTime : Int) (p : Nat × FamilyEntry) : Bool :=
  match p.2 with
  | .corrupt => true
  | .family f =>
    f.startTime == baseTime + p.1 * oneHour && f.endTime == f.startTime + oneHour - 1

/-- Well-formedness of a segment's families map. -/
def Segment.WellFormed (seg : Segment) : Bool :=
  seg.families.all (familyEntryWF seg.baseTime)

/-- Whether an `Except` result is a success. -/
def exceptIsOk {ε α : Type} : Except ε α → Bool
  | .ok _ => true
  | .error _ => false

/-! ### Claims C5 and C6 -/

theorem slot_window (base t : Int) (h1 : base ≤ t) (h2 : t < base + oneDay) :
    base + (calcFamilySlot base t : Int) * oneHour ≤ t ∧
    t < base + (calcFamilySlot base t : Int) * oneHour + oneHour := by
  unfold calcFamilySlot oneHour oneDay at *
  omega

/-- C5 counterexample: a timestamp inside the segment's day for which
`GetOrCreateDataFamily` does NOT return a family — the computed slot holds a
corrupt sentinel, so the call fails (with `NotFound`) even though the
timestamp is in range. -/
theorem dataFamily_within_day_counterexample :
    ((0:Int) ≤ 100 ∧ (100:Int) < 0 + oneDay) ∧
    exceptIsOk
      (Segment.GetOrCreateDataFamily ⟨0, 10000, [(0, FamilyEntry.corrupt)]⟩ true 100).1 =
      false := by
  decide

/-- C5 (amended): for a segment whose stored families sit at their computed
slots (as the creation path guarantees), a timestamp inside the segment's
day either fails (corrupt slot, or the kv store refusing to create the
family) or yields a family whose window `[start, start + 1h)` contains the
timestamp; a timestamp outside the segment's day always fails with the
range error and leaves the families map unchanged — no family is created or
stored. -/
theorem dataFamily_time_containment_amended (seg : Segment) (createOk : Bool) (t : Int)
    (hwf : seg.WellFormed = true) :
    ((seg.baseTime ≤ t ∧ t < seg.baseTime + oneDay) →
      ∀ f seg', Segment.GetOrCreateDataFamily seg createOk t = (.ok f, seg') →
        f.startTime ≤ t ∧ t < f.startTime + oneHour ∧
        f.endTime = f.startTime + oneHour - 1) ∧
    (¬(seg.baseTime ≤ t ∧ t < seg.baseTime + oneDay) →
      Segment.GetOrCreateDataFamily seg createOk t = (.error .rangeErr, seg)) := by
  constructor
  · rintro ⟨h1, h2⟩ f seg' hcall
    have hcond : ¬(t < seg.baseTime ∨ seg.baseTime + oneDay ≤ t) := by omega
    have hwin := slot_window seg.baseTime t h1 h2
    simp only [Segment.GetOrCreateDataFamily, hcond, if_false, ite_false] at hcall
    rcases hlook : lookupm seg.families (calcFamilySlot seg.baseTime t) with _ | entry
    · rw [hlook] at hcall
      by_cases hcr : createOk = true
      · subst hcr
        simp only [if_true, ite_true, Prod.mk.injEq, Except.ok.injEq] at hcall
        obtain ⟨hf, _⟩ := hcall
        subst hf
        exact ⟨hwin.1, hwin.2, rfl⟩
      · rw [Bool.not_eq_true] at hcr
        subst hcr
        simp at hcall
    · cases entry with
      | family g =>
        rw [hlook] at hcall
        simp only [Prod.mk.injEq, Except.ok.injEq] at hcall
        obtain ⟨hf, _⟩ := hcall
        subst hf
        have hmem := lookupm_mem _ _ _ hlook
        have hall := hwf
        unfold Segment.WellFormed at hall
        rw [List.all_eq_true] at hall
        have hent := hall _ hmem
        simp only [familyEntryWF, Bool.and_eq_true, beq_iff_eq] at hent
        obtain ⟨hs, he⟩ := hent
        refine ⟨?_, ?_, he⟩
        · rw [hs]; exact hwin.1
        · rw [hs]; exact hwin.2
      | corrupt =>
        rw [hlook] at hcall
        simp at hcall
  · intro hout
    have hcond : t < seg.baseTime ∨ seg.baseTime + oneDay ≤ t := by
      rcases not_and_or.mp hout with h | h
      · exact Or.inl (by omega)
      · exact Or.inr (by omega)
    simp [Segment.GetOrCreateDataFamily, hcond]

/-- Witness for the amended C5: on a well-formed empty segment for day base
0, the timestamp 100 (inside the day) yields a created family whose window
contains it, and the timestamp -5 (outside the day) yields the range error
with the segment unchanged. -/
theorem dataFamily_time_containment_amended_witness :
    (⟨0, 10000, []⟩ : Segment).WellFormed = true ∧
    (∃ f, (Segment.GetOrCreateDataFamily ⟨0, 10000, []⟩ true 100).1 = .ok f ∧
      f.startTime ≤ 100 ∧ (100:Int) < f.startTime + oneHour) ∧
    Segment.GetOrCreateDataFamily ⟨0, 10000, []⟩ true (-5) =
      (.error .rangeErr, ⟨0, 10000, []⟩) := by
  refine ⟨rfl, ⟨⟨0, 3599999⟩, rfl, ?_⟩, ?_⟩
  · have h := (dataFamily_time_containment_amended ⟨0, 10000, []⟩ true 100 rfl).1
      (by decide) ⟨0, 3599999⟩ ⟨0, 10000, [(0, FamilyEntry.family ⟨0, 3599999⟩)]⟩ rfl
    exact ⟨h.1, h.2.1⟩
  · exact (dataFamily_time_containment_amended ⟨0, 10000, []⟩ true (-5) rfl).2 (by decide)

/-- C6: for a timestamp inside the segment's day whose computed slot is
already present in the families map, `GetOrCreateDataFamily` returns the
stored entry when it is a `DataFamily` (unchanged segment, no error), and
fails with the `NotFound` sentinel and a nil family when the stored value is
the corrupt sentinel. -/
theorem dataFamily_existing_slot (seg : Segment) (createOk : Bool) (t : Int)
    (hin : seg.baseTime ≤ t ∧ t < seg.baseTime + oneDay) :
    (∀ f, lookupm seg.families (calcFamilySlot seg.baseTime t) = some (.family f) →
      Segment.GetOrCreateDataFamily seg createOk t = (.ok f, seg)) ∧
    (lookupm seg.families (calcFamilySlot seg.baseTime t) = some .corrupt →
      Segment.GetOrCreateDataFamily seg createOk t = (.error .notFound, seg)) := by
  obtain ⟨h1, h2⟩ := hin
  have hcond : ¬(t < seg.baseTime ∨ seg.baseTime + oneDay ≤ t) := by omega
  constructor
  · intro f hf
    simp [Segment.GetOrCreateDataFamily, hcond, hf]
  · intro hf
    simp [Segment.GetOrCreateDataFamily, hcond, hf]

/-- Witness for C6 on a segment for day base 0 holding a family at slot 0
and the corrupt sentinel at slot 23: the 00:00:10 timestamp returns the
stored family, the 23:10 timestamp fails with `NotFound`. -/
theorem dataFamily_existing_slot_witness :
    ((0:Int) ≤ 10000 ∧ (10000:Int) < 0 + oneDay) ∧
    Segment.GetOrCreateDataFamily
        ⟨0, 10000, [(0, .family ⟨0, 3599999⟩), (23, .corrupt)]⟩ true 10000 =
      (.ok ⟨0, 3599999⟩, ⟨0, 10000, [(0, .family ⟨0, 3599999⟩), (23, .corrupt)]⟩) ∧
    Segment.GetOrCreateDataFamily
        ⟨0, 10000, [(0, .family ⟨0, 3599999⟩), (23, .corrupt)]⟩ true 83400000 =
      (.error .notFound, ⟨0, 10000, [(0, .family ⟨0, 3599999⟩), (23, .corrupt)]⟩) :=
  ⟨by decide,
   (dataFamily_existing_slot ⟨0, 10000, [(0, .family ⟨0, 3599999⟩), (23, .corrupt)]⟩
      true 10000 (by decide)).1 ⟨0, 3599999⟩ rfl,
   (dataFamily_existing_slot ⟨0, 10000, [(0, .family ⟨0, 3599999⟩), (23, .corrupt)]⟩
      true 83400000 (by decide)).2 rfl⟩

/-! ### Claim C7: newSegment -/

/-- Modelled from the spec: parse a kv family directory name as a decimal
slot integer (the names are written as decimal text, so digits only);
any non-digit name fails to parse. -/
def parseSlotName (s : String) : Option Nat :=
  if s.data ≠ [] ∧ s.data.all Char.isDigit
  then some (s.data.foldl (fun n c => n * 10 + (c.toNat - 48)) 0)
  else none

/-- Parse all family names of the opened store; `none` as soon as any single
name fails to parse as a slot integer. -/
def parseSlots : List String → Option (List Nat)
  | [] => some []
  | n :: rest =>
    match parseSlotName n with
    | none => none
    | some s => (parseSlots rest).map (fun l => s :: l)

/-- Rebuild the families map eagerly for the existing slots (the spec leaves
lazy vs eager wrapper materialisation as an implementation choice). -/
def buildFamilies (baseTime : Int) (slots : List Nat) : List (Nat × FamilyEntry) :=
  slots.map fun s =>
    (s, .family ⟨baseTime + s * oneHour, baseTime + s * oneHour + oneHour - 1⟩)

/-- Result of `newSegment`: the opened segment, or a failure recording
whether the kv store opened on the way was closed again before returning. -/
inductive NewSegmentResult
  | ok (seg : Segment)
  | fail (storeClosed : Bool)
deriving DecidableEq

/-- Modelled from the spec: `newSegment` opens (or creates) the kv store
under the segment path, enumerates the existing family names — each must
parse as a slot integer, a non-integer name is a fatal error that closes the
store and fails the call — and rebuilds the families map for the existing
slots.  `baseTime` is the timestamp parsed from the `YYYYMMDD` date key,
`familyNames` the names the opened store reports. -/
def newSegment (baseTime interval : Int) (familyNames : List String) : NewSegmentResult :=
  match parseSlots familyNames with
  | none => .fail true
  | some slots => .ok ⟨baseTime, interval, buildFamilies baseTime slots⟩

theorem parseSlots_none (names : List String)
    (h : ∃ n ∈ names, parseSlotName n = none) : parseSlots names = none := by
  induction names with
  | nil => simp at h
  | cons a rest ih =>
    obtain ⟨n, hn, hpn⟩ := h
    rcases List.mem_cons.mp hn with heq | hn'
    · subst heq
      simp [parseSlots, hpn]
    · cases hpa : parseSlotName a with
      | none => simp [parseSlots, hpa]
      | some s => simp [parseSlots, hpa, ih ⟨n, hn', hpn⟩]

/-- C7: if any family name the opened kv store reports does not parse as a
slot integer, `newSegment` returns no segment and an error, and the kv
store it opened is closed before returning. -/
theorem newSegment_invalid_family_name (baseTime interval : Int)
    (names : List String) (h : ∃ n ∈ names, parseSlotName n = none) :
    newSegment baseTime interval names = .fail true := by
  simp [newSegment, parseSlots_none names h]

/-- Witness for C7: the spec's scenario 4 — a family directory named
`"abc"` (store opened for date key `20190904`, i.e. base timestamp
1567555200000 ms, 10 s interval) fails `newSegment` with the store
closed. -/
theorem newSegment_invalid_family_name_witness :
    (∃ n ∈ ["abc"], parseSlotName n = none) ∧
    newSegment 1567555200000 10000 ["abc"] = .fail true :=
  ⟨⟨"abc", by simp, by decide⟩,
   newSegment_invalid_family_name 1567555200000 10000 ["abc"]
     ⟨"abc", by simp, by decide⟩⟩
